import Mathlib

/-!
Shallow embedding of `rag_pipeline/src/vectorstores/faiss_vectorstore.py`
(class `Fais_VS`), the FAISS-backed vector store of the repository, together
with theorems settling the frozen claims about it.

Modelling conventions:
* Embedding vectors are `List Int` (the claims under scrutiny are structural;
  no claim depends on float rounding, so machine floats are modelled by exact
  integers).
* The external embedder (`self.embedder_model`) and the external reranker
  (`rag_pipeline.src.models.reranker.Reranker`, whose source is not part of
  this repository) are modelled as function-valued parameters; an embedder
  call that raises is modelled by an `Option` result of `none`.
* Python dictionaries populated as `{i: x_i for i, x in enumerate(...)}` are
  modelled as lists (positional keys) or association lists (string/int keys),
  exactly mirroring how the source reads them back.
* A Python method that can raise returns `Except PyError` (or pairs the
  partially mutated object with `Option PyError` for mutating methods, since
  an exception leaves all attribute assignments made before the raise).
-/

/-- A value stored in a document's metadata dictionary. -/
inductive MetaVal where
  | s (v : String)
  | i (v : Int)
  | b (v : Bool)
deriving DecidableEq

/-- `langchain.schema.Document`: page content plus a metadata dictionary. -/
structure Doc where
  page_content : String
  metadata : List (String × MetaVal)
deriving DecidableEq

/-- Sets `d[k] = v` on an association-list dictionary: replaces the first
binding of `k`, or appends one. -/
def setKey {α β : Type} [BEq α] (l : List (α × β)) (k : α) (v : β) : List (α × β) :=
  match l with
  | [] => [(k, v)]
  | (k0, v0) :: rest => if k0 == k then (k, v) :: rest else (k0, v0) :: setKey rest k v

/-- The external embedding model. `batch_embed` returning `none` models the
external call raising; `embed_query` is optional, mirroring the source's
`hasattr(self.embedder_model, 'embed_query')` check. -/
structure EmbedderModel where
  batch_embed : List String → Option (List (List Int))
  embed_query : Option (String → Option (List Int))

/-- A `faiss.IndexFlatIP`: a fixed dimension and the rows added so far
(`ntotal = vectors.length`; row id `i` is the `i`-th vector ever added). -/
structure FaissIndexFlatIP where
  d : Nat
  vectors : List (List Int)
deriving DecidableEq

/-- Inner-product score of a query row against a stored row. -/
def ipScore (q v : List Int) : Int := (List.zipWith (fun a b => a * b) q v).sum

/-- `index.search(q, k)` for `IndexFlatIP` on a single query row: the `k`
best `(score, row id)` pairs by descending inner product, padded with the
FAISS sentinel row id `-1` when fewer than `k` rows exist. -/
def faissSearch (idx : FaissIndexFlatIP) (q : List Int) (k : Nat) : List (Int × Int) :=
  let scored := idx.vectors.enum.map (fun p => (ipScore q p.2, (p.1 : Int)))
  let sorted := scored.mergeSort (fun a b => decide (b.1 < a.1 ∨ (a.1 = b.1 ∧ a.2 ≤ b.2)))
  let top := sorted.take k
  top ++ List.replicate (k - top.length) ((0 : Int), (-1 : Int))

/-- The Python exceptions the modelled methods can raise. -/
inductive PyError where
  | valueError (msg : String)
  | typeError (msg : String)
  | fileNotFoundError (msg : String)
  | attributeError (msg : String)
  | externalError (msg : String)
deriving DecidableEq

/-- `index.add(rows)`: appends; FAISS asserts every row has the index's
dimension. -/
def faissAdd (idx : FaissIndexFlatIP) (rows : List (List Int)) :
    Except PyError FaissIndexFlatIP :=
  if rows.all (fun r => r.length == idx.d) then
    .ok { idx with vectors := idx.vectors ++ rows }
  else .error (.valueError "add: rows must match index dimension")

/-- The state of a `Fais_VS` instance (its instance attributes). -/
structure FaisVS where
  index : Option FaissIndexFlatIP
  chunks_dict : Option (List String)
  dimension : Option Nat
  total_vectors : Nat
  index_type : String
  embedder_model : Option EmbedderModel
  enable_reranking : Bool
  reranker : String → List Doc → List Doc
  docstore : Option (List (String × Doc))
  index_to_docstore_id : Option (List (Int × String))
  documents : Option (List Doc)

/-- `Fais_VS.__init__`: the `reranker` argument stands for the behaviour of
the `Reranker()` instance constructed there. Modelled from the spec: the
Reranker class itself (`rag_pipeline.src.models.reranker`) is not part of
this repository; the spec only constrains `rerank` to return a reordered /
re-scored subset of its input. -/
def initFais (embedder_model : Option EmbedderModel)
    (reranker : String → List Doc → List Doc) : FaisVS :=
  { index := none
    chunks_dict := none
    dimension := none
    total_vectors := 0
    index_type := "IndexFlatIP"
    embedder_model := embedder_model
    enable_reranking := true
    reranker := reranker
    docstore := none
    index_to_docstore_id := none
    documents := none }

/-- `isRect rows`: whether `np.array(rows)` forms a proper 2-D matrix; a
ragged batch makes `np.array(...).astype("float32")` raise before any
attribute of the instance is assigned. -/
def isRect : List (List Int) → Bool
  | [] => true
  | r :: rs => rs.all (fun x => x.length == r.length)

/-- `np.array` of a batch followed by the source's `ndim == 1` reshape:
a 0-row batch becomes a 1-D empty array, which `reshape(1, -1)` turns into
one row of length 0. -/
def toMatrix (rows : List (List Int)) : List (List Int) :=
  if rows.isEmpty then [[]] else rows

/-- `embeddings.shape[1]` of a (nonempty) matrix. -/
def rowDim (m : List (List Int)) : Nat := (m.headD []).length

/-- The enhanced docstore built at `create_vectorstore`:
`{str(i): doc for i, doc in enumerate(docs)}`. -/
def stdDocstore (docs : List Doc) : List (String × Doc) :=
  docs.enum.map (fun p => (toString p.1, p.2))

/-- The row-id indirection built at `create_vectorstore`:
`{i: str(i) for i in range(len(docs))}`. -/
def stdMapping (n : Nat) : List (Int × String) :=
  (List.range n).map (fun (i : Nat) => ((i : Int), toString i))

/-- `Fais_VS.create_vector_store(documents, embedder_model=None)` (chunk
mode). Returns the instance state after the call together with the raised
exception, if any: attribute assignments made before a raise persist. -/
def create_vector_store (vs : FaisVS) (documents : List Doc)
    (embedder_model : Option EmbedderModel) : FaisVS × Option PyError :=
  let vs1 := match embedder_model with
    | some em => { vs with embedder_model := some em }
    | none => vs
  match vs1.embedder_model with
  | none => (vs1, some (.valueError "Embedder model is required"))
  | some em =>
    let texts := documents.map (fun d => d.page_content)
    match em.batch_embed texts with
    | none => (vs1, some (.externalError "batch_embed raised"))
    | some rows =>
      if isRect rows = false then
        (vs1, some (.valueError "np.array: inhomogeneous shape"))
      else
        let embeddings := toMatrix rows
        let vs2 := { vs1 with dimension := some (rowDim embeddings) }
        let idx0 : FaissIndexFlatIP := { d := rowDim embeddings, vectors := [] }
        let vs3 := { vs2 with index := some idx0 }
        match faissAdd idx0 embeddings with
        | .error e => (vs3, some e)
        | .ok idx1 =>
          let vs4 := { vs3 with index := some idx1 }
          let vs5 := { vs4 with chunks_dict := some texts }
          let vs6 := { vs5 with total_vectors := idx1.vectors.length }
          (vs6, none)

/-- `Fais_VS.create_vectorstore(docs, normalize_embeddings=True)` (enhanced
mode). `normalize_L2` stands for the external numeric routine
`faiss.normalize_L2` (in-place scaling of each row to unit norm). -/
def create_vectorstore (normalize_L2 : List (List Int) → List (List Int))
    (vs : FaisVS) (docs : List Doc) (normalize_embeddings : Bool) :
    FaisVS × Option PyError :=
  match vs.embedder_model with
  | none =>
    (vs, some (.valueError
      "Embedder model is required. Set it during initialization or call set_embedder_model()"))
  | some em =>
    let texts := docs.map (fun d => d.page_content)
    match em.batch_embed texts with
    | none => (vs, some (.externalError "batch_embed raised"))
    | some rows =>
      if isRect rows = false then
        (vs, some (.valueError "np.array: inhomogeneous shape"))
      else
        let embeddings := toMatrix rows
        let vs2 := { vs with dimension := some (rowDim embeddings) }
        let idx0 : FaissIndexFlatIP := { d := rowDim embeddings, vectors := [] }
        let vs3 := { vs2 with index := some idx0 }
        let embeddings2 := if normalize_embeddings then normalize_L2 embeddings else embeddings
        match faissAdd idx0 embeddings2 with
        | .error e => (vs3, some e)
        | .ok idx1 =>
          let vs4 := { vs3 with index := some idx1 }
          let vs5 := { vs4 with documents := some docs }
          let vs6 := { vs5 with docstore := some (stdDocstore docs) }
          let vs7 := { vs6 with index_to_docstore_id := some (stdMapping docs.length) }
          let vs8 := { vs7 with chunks_dict := some (docs.map (fun (d : Doc) => d.page_content)) }
          let vs9 := { vs8 with total_vectors := idx1.vectors.length }
          (vs9, none)

/-- `Fais_VS.set_embedder_model`. -/
def set_embedder_model (vs : FaisVS) (embedder_model : EmbedderModel) : FaisVS :=
  { vs with embedder_model := some embedder_model }

/-- Renders `self.dimension` inside an f-string (`None` when unset). -/
def dimStr : Option Nat → String
  | some d => toString d
  | none => "None"

/-- The result-collection loop of `_search_with_docstore` over the raw
`(distance, row id)` pairs: skips the `-1` sentinel, resolves through
`index_to_docstore_id` then `docstore` (a row absent from either is silently
skipped), and emits a copy of the document with `similarity` and
`retrieval_index` added to its metadata.  Membership tests on a `None`
dictionary raise `TypeError`, as in Python. -/
def docstoreCollect (index_to_docstore_id : Option (List (Int × String)))
    (docstore : Option (List (String × Doc))) :
    List (Int × Int) → Except PyError (List Doc)
  | [] => .ok []
  | (dist, fidx) :: rest =>
    if fidx != -1 then
      match index_to_docstore_id with
      | none => .error (.typeError "argument of type NoneType is not iterable")
      | some m =>
        match List.lookup fidx m with
        | none => docstoreCollect index_to_docstore_id docstore rest
        | some docstore_id =>
          match docstore with
          | none => .error (.typeError "argument of type NoneType is not iterable")
          | some ds =>
            match List.lookup docstore_id ds with
            | none => docstoreCollect index_to_docstore_id docstore rest
            | some doc =>
              let enhanced_metadata := setKey doc.metadata "similarity" (MetaVal.i dist)
              let enhanced_metadata := setKey enhanced_metadata "retrieval_index" (MetaVal.i fidx)
              match docstoreCollect index_to_docstore_id docstore rest with
              | .error e => .error e
              | .ok docs =>
                .ok ({ page_content := doc.page_content, metadata := enhanced_metadata } :: docs)
    else docstoreCollect index_to_docstore_id docstore rest

/-- `Fais_VS._search_with_docstore(query_embedding, top_k=5)`. The modelled
query is the single row the source's reshape produces. When `self.dimension`
is `None`, Python's `shape[1] != None` is true, so the mismatch branch is
taken. -/
def _search_with_docstore (vs : FaisVS) (query_embedding : List Int) (top_k : Nat) :
    Except PyError (List Doc) :=
  let dimOk := match vs.dimension with
    | some d => query_embedding.length == d
    | none => false
  if dimOk = false then
    .error (.valueError ("Query embedding dimension " ++ toString query_embedding.length ++
      " doesn't match index dimension " ++ dimStr vs.dimension))
  else
    match vs.index with
    | none => .error (.attributeError "NoneType object has no attribute search")
    | some idx =>
      docstoreCollect vs.index_to_docstore_id vs.docstore (faissSearch idx query_embedding top_k)

/-- One entry of the list `_search_chunks` returns
(`{'chunk_id', 'text', 'distance', 'similarity'}`). -/
structure ChunkResult where
  chunk_id : Int
  text : String
  distance : Int
  similarity : Int
deriving DecidableEq

/-- The result-collection loop of `_search_chunks`: skips the `-1` sentinel
and any row id at or beyond `len(chunks_dict)`.  `len(None)` raises
`TypeError` (only reached when a non-sentinel id appears while `chunks_dict`
is `None`, because `and` short-circuits).  FAISS row ids are `-1` or in
`[0, ntotal)`, so the positional lookup `chunks.get? fidx.toNat` is the
dictionary access `self.chunks_dict[faiss_idx]`. -/
def chunksCollect (chunks_dict : Option (List String)) :
    List (Int × Int) → Except PyError (List ChunkResult)
  | [] => .ok []
  | (dist, fidx) :: rest =>
    if fidx != -1 then
      match chunks_dict with
      | none => .error (.typeError "object of type NoneType has no len()")
      | some chunks =>
        if fidx < (chunks.length : Int) then
          match chunksCollect chunks_dict rest with
          | .error e => .error e
          | .ok out =>
            .ok ({ chunk_id := fidx, text := (chunks.get? fidx.toNat).getD "",
                   distance := dist, similarity := dist } :: out)
        else chunksCollect chunks_dict rest
    else chunksCollect chunks_dict rest

/-- `Fais_VS._search_chunks(query_embedding, top_k=5)`. -/
def _search_chunks (vs : FaisVS) (query_embedding : List Int) (top_k : Nat) :
    Except PyError (List ChunkResult) :=
  let dimOk := match vs.dimension with
    | some d => query_embedding.length == d
    | none => false
  if dimOk = false then
    .error (.valueError ("Query embedding dimension " ++ toString query_embedding.length ++
      " doesn't match index dimension " ++ dimStr vs.dimension))
  else
    match vs.index with
    | none => .error (.attributeError "NoneType object has no attribute search")
    | some idx =>
      chunksCollect vs.chunks_dict (faissSearch idx query_embedding top_k)

/-- The metadata blob pickled by `save_index`. -/
structure SavedMetadata where
  chunks_dict : Option (List String)
  dimension : Option Nat
  total_vectors : Nat
  index_type : String
  docstore : Option (List (String × Doc))
  index_to_docstore_id : Option (List (Int × String))
  documents : Option (List Doc)
  enable_reranking : Bool
deriving DecidableEq

/-- The two kinds of artifacts the store persists: `<path>.faiss` index
files and `<path>_metadata.pkl` pickles, keyed by path. -/
structure FileSystem where
  faissFiles : List (String × FaissIndexFlatIP)
  pklFiles : List (String × SavedMetadata)

/-- A file system with neither artifact present. -/
def emptyFS : FileSystem := { faissFiles := [], pklFiles := [] }

/-- `Fais_VS.save_index(file_path)`: prepends `vectorstores/`, refuses when
no index is built, then writes the index bytes and the metadata pickle. -/
def save_index (vs : FaisVS) (fs : FileSystem) (file_path : String) :
    FileSystem × Option PyError :=
  let fp := "vectorstores/" ++ file_path
  match vs.index with
  | none => (fs, some (.valueError "No index to save"))
  | some idx =>
    let fs1 := { fs with faissFiles := setKey fs.faissFiles (fp ++ ".faiss") idx }
    let metadata : SavedMetadata :=
      { chunks_dict := vs.chunks_dict
        dimension := vs.dimension
        total_vectors := vs.total_vectors
        index_type := vs.index_type
        docstore := vs.docstore
        index_to_docstore_id := vs.index_to_docstore_id
        documents := vs.documents
        enable_reranking := vs.enable_reranking }
    let fs2 := { fs1 with pklFiles := setKey fs1.pklFiles (fp ++ "_metadata.pkl") metadata }
    (fs2, none)

/-- `Fais_VS.load_index(file_path, embedder_model=None)`: checks both files
exist (raising `FileNotFoundError` naming the absent one before anything is
loaded), reads the index, then restores `chunks_dict`, `dimension`,
`total_vectors` and `index_type` from the metadata — and nothing else. -/
def load_index (vs : FaisVS) (fs : FileSystem) (file_path : String)
    (embedder_model : Option EmbedderModel) : FaisVS × Option PyError :=
  let fp := "vectorstores/" ++ file_path
  match List.lookup (fp ++ ".faiss") fs.faissFiles with
  | none => (vs, some (.fileNotFoundError ("Index file " ++ fp ++ ".faiss not found")))
  | some idx =>
    match List.lookup (fp ++ "_metadata.pkl") fs.pklFiles with
    | none =>
      (vs, some (.fileNotFoundError ("Metadata file " ++ fp ++ "_metadata.pkl not found")))
    | some metadata =>
      let vs1 := { vs with index := some idx }
      let vs2 := { vs1 with chunks_dict := metadata.chunks_dict }
      let vs3 := { vs2 with dimension := metadata.dimension }
      let vs4 := { vs3 with total_vectors := metadata.total_vectors }
      let vs5 := { vs4 with index_type := metadata.index_type }
      let vs6 := match embedder_model with
        | some em => { vs5 with embedder_model := some em }
        | none => vs5
      (vs6, none)

/-- The query-embedding step of `get_relevant_documents` for a string query:
`embed_query` when the embedder has one, otherwise `batch_embed([query])`
unwrapped to its first row. -/
def embedQueryStep (vs : FaisVS) (query : String) : Except PyError (List Int) :=
  match vs.embedder_model with
  | none => .error (.attributeError "NoneType object has no attribute batch_embed")
  | some em =>
    match em.embed_query with
    | some f =>
      match f query with
      | some v => .ok v
      | none => .error (.externalError "embed_query raised")
    | none =>
      match em.batch_embed [query] with
      | none => .error (.externalError "batch_embed raised")
      | some rows => .ok (rows.headD [])

/-- The parameters (after `self`) declared by both `_search_with_docstore`
and `_search_chunks`: `(query_embedding, top_k=5)`. -/
def searchHelperParamNames : List String := ["query_embedding", "top_k"]

/-- The literal `k` value `get_relevant_documents` passes to its search
helpers. -/
def initialSearchK : Nat := 5

/-- The keyword arguments `get_relevant_documents` passes at both helper
call sites: `initial_k=5`. -/
def initialSearchKwargs : List (String × Nat) := [("initial_k", initialSearchK)]

/-- Python keyword-argument binding for `f(positional_arg, **kwargs)`: a
keyword absent from the declared parameter list raises `TypeError`;
otherwise `top_k` is bound from the keywords or defaults to `5`. -/
def callByKeywords {α : Type} (fname : String) (paramNames : List String)
    (kwargs : List (String × Nat)) (body : Nat → Except PyError α) :
    Except PyError α :=
  match kwargs.find? (fun kv => !(paramNames.contains kv.1)) with
  | some kv => .error (.typeError (fname ++ "() got an unexpected keyword argument " ++ kv.1))
  | none => body ((List.lookup "top_k" kwargs).getD 5)

/-- `Fais_VS.get_relevant_documents(query, top_k=5)`: embeds the query,
dispatches on `self.docstore is not None`, calls the matching search helper
with keyword arguments `initial_k=5`, converts chunk results to `Document`s,
reranks, tags non-empty metadata with `reranked = True`, and truncates to
`top_k`. -/
def get_relevant_documents (vs : FaisVS) (query : String) (top_k : Nat) :
    Except PyError (List Doc) :=
  match embedQueryStep vs query with
  | .error e => .error e
  | .ok query_embedding =>
    let searched : Except PyError (List Doc) :=
      if vs.docstore.isSome then
        callByKeywords "_search_with_docstore" searchHelperParamNames initialSearchKwargs
          (fun k => _search_with_docstore vs query_embedding k)
      else
        match callByKeywords "_search_chunks" searchHelperParamNames initialSearchKwargs
            (fun k => _search_chunks vs query_embedding k) with
        | .error e => .error e
        | .ok rs =>
          .ok (rs.map (fun r =>
            ({ page_content := r.text,
               metadata := [("similarity", MetaVal.i r.similarity)] } : Doc)))
    match searched with
    | .error e => .error e
    | .ok candidates0 =>
      let candidates1 := vs.reranker query candidates0
      let candidates2 := candidates1.map (fun d =>
        if d.metadata.isEmpty then d
        else { d with metadata := setKey d.metadata "reranked" (MetaVal.b true) })
      .ok (candidates2.take top_k)

/-- Row-id resolution through `chunks_dict`, as the chunk search path
performs it. -/
def resolveChunk (vs : FaisVS) (i : Nat) : Option String :=
  match vs.chunks_dict with
  | none => none
  | some chunks => chunks.get? i

/-- Row-id resolution through `index_to_docstore_id` and `docstore`, as
`_search_with_docstore` performs it. -/
def resolveDoc (vs : FaisVS) (i : Int) : Option Doc :=
  match vs.index_to_docstore_id with
  | none => none
  | some m =>
    match List.lookup i m with
    | none => none
    | some key =>
      match vs.docstore with
      | none => none
      | some ds => List.lookup key ds

/-! ### Decimal representation facts

`stdDocstore` keys documents by `str(i)`; resolving them back needs that
`toString : Nat → String` is injective, which we prove by decoding the
digit list `Nat.toDigitsCore` produces. -/

/-- Decodes a list of decimal digit characters back to the number. -/
def decDigits (l : List Char) : Nat :=
  l.foldl (fun a c => 10 * a + (c.toNat - 48)) 0

theorem toDigitsCore_append (fuel : Nat) :
    ∀ (n : Nat) (ds : List Char),
      Nat.toDigitsCore 10 fuel n ds = Nat.toDigitsCore 10 fuel n [] ++ ds := by
  induction fuel with
  | zero => intro n ds; simp [Nat.toDigitsCore]
  | succ f ih =>
    intro n ds
    simp only [Nat.toDigitsCore]
    by_cases h : n / 10 = 0
    · simp [h]
    · simp only [h, if_false]
      rw [ih (n / 10) (Nat.digitChar (n % 10) :: ds),
          ih (n / 10) (Nat.digitChar (n % 10) :: [])]
      simp

theorem digitChar_decode (d : Nat) (h : d < 10) :
    (Nat.digitChar d).toNat - 48 = d := by
  interval_cases d <;> rfl

theorem decDigits_toDigitsCore (fuel : Nat) :
    ∀ n : Nat, n < fuel → ∀ a : Nat,
      (Nat.toDigitsCore 10 fuel n []).foldl (fun a c => 10 * a + (c.toNat - 48)) a =
        a * 10 ^ (Nat.toDigitsCore 10 fuel n []).length + n := by
  induction fuel with
  | zero => intro n hn; omega
  | succ f ih =>
    intro n hn a
    simp only [Nat.toDigitsCore]
    by_cases h : n / 10 = 0
    · have h10 : n < 10 := by omega
      have hmod : n % 10 = n := Nat.mod_eq_of_lt h10
      simp [h, hmod, digitChar_decode n h10, List.foldl]
      try ring
    · have hdiv_lt : n / 10 < f := by
        have h1 : n / 10 < n := Nat.div_lt_self (by omega) (by omega)
        omega
      simp only [h, if_false]
      rw [toDigitsCore_append f (n / 10) [Nat.digitChar (n % 10)]]
      rw [List.foldl_append, List.length_append]
      rw [ih (n / 10) hdiv_lt a]
      simp only [List.foldl, List.length_cons, List.length_nil]
      have hmod : n % 10 < 10 := Nat.mod_lt _ (by omega)
      rw [digitChar_decode (n % 10) hmod]
      have : 10 * (a * 10 ^ (Nat.toDigitsCore 10 f (n / 10) []).length + n / 10) + n % 10 =
          a * (10 ^ (Nat.toDigitsCore 10 f (n / 10) []).length * 10) +
            (10 * (n / 10) + n % 10) := by ring
      rw [this, Nat.div_add_mod, pow_succ]

theorem decDigits_toDigits (n : Nat) : decDigits (Nat.toDigits 10 n) = n := by
  have := decDigits_toDigitsCore (n + 1) n (Nat.lt_succ_self n) 0
  simpa [decDigits, Nat.toDigits] using this

theorem toString_nat_injective : Function.Injective (fun n : Nat => toString n) := by
  intro m n h
  have hdata : Nat.toDigits 10 m = Nat.toDigits 10 n := by
    have : (Nat.toDigits 10 m).asString = (Nat.toDigits 10 n).asString := h
    have hd := congrArg String.data this
    simpa [List.asString] using hd
  have := congrArg decDigits hdata
  simpa [decDigits_toDigits] using this

/-! ### Association-list dictionary lemmas -/

theorem lookup_setKey_self {α β : Type} [BEq α] [LawfulBEq α]
    (l : List (α × β)) (k : α) (v : β) : List.lookup k (setKey l k v) = some v := by
  induction l with
  | nil => simp [setKey, List.lookup]
  | cons p rest ih =>
    obtain ⟨k0, v0⟩ := p
    by_cases h : k0 == k
    · simp [setKey, h, List.lookup]
    · simp only [setKey, h, Bool.false_eq_true, if_false, List.lookup]
      have hne : k ≠ k0 := Ne.symm (by simpa using h)
      simp [beq_false_of_ne hne, ih]

theorem lookup_setKey_ne {α β : Type} [BEq α] [LawfulBEq α]
    (l : List (α × β)) (k k' : α) (v : β) (hne : k' ≠ k) :
    List.lookup k' (setKey l k v) = List.lookup k' l := by
  induction l with
  | nil => simp [setKey, List.lookup, beq_false_of_ne hne]
  | cons p rest ih =>
    obtain ⟨k0, v0⟩ := p
    by_cases h : k0 == k
    · have hk0 : k0 = k := by simpa using h
      subst hk0
      simp [setKey, List.lookup, beq_false_of_ne hne]
    · simp only [setKey, h, Bool.false_eq_true, if_false, List.lookup]
      by_cases h2 : k' == k0 <;> simp [h2, ih]

theorem lookup_stdMapping (n i : Nat) (h : i < n) :
    List.lookup ((i : Int)) (stdMapping n) = some (toString i) := by
  have main : ∀ (l : List Nat), i ∈ l →
      List.lookup ((i : Int)) (l.map (fun (j : Nat) => ((j : Int), toString j))) =
        some (toString i) := by
    intro l
    induction l with
    | nil => intro hmem; cases hmem
    | cons j rest ih =>
      intro hmem
      by_cases hij : i = j
      · subst hij
        simp [List.lookup]
      · have hne : (i : Int) ≠ (j : Int) := by
          intro hc
          exact hij (by exact_mod_cast hc)
        have hbeq : ((i : Int) == (j : Int)) = false := beq_false_of_ne hne
        have hmem' : i ∈ rest := by
          rcases List.mem_cons.mp hmem with h1 | h1
          · exact absurd h1 hij
          · exact h1
        simp [List.lookup, hbeq, ih hmem']
  simpa [stdMapping] using main (List.range n) (List.mem_range.mpr h)

theorem lookup_stdDocstore (docs : List Doc) (i : Nat) (h : i < docs.length) :
    List.lookup (toString i) (stdDocstore docs) = docs.get? i := by
  suffices main : ∀ (k : Nat) (ds : List Doc) (i : Nat), i < ds.length →
      List.lookup (toString (k + i))
        ((List.enumFrom k ds).map (fun p => (toString p.1, p.2))) = ds.get? i by
    have := main 0 docs i h
    simpa [stdDocstore, List.enum] using this
  intro k ds
  induction ds generalizing k with
  | nil => intro i hi; simp at hi
  | cons d rest ih =>
    intro i hi
    cases i with
    | zero => simp [List.enumFrom, List.lookup]
    | succ j =>
      have hne : toString (k + (j + 1)) ≠ toString k := by
        intro hEq
        have := toString_nat_injective hEq
        omega
      have hbeq : (toString (k + (j + 1)) == toString k) = false := beq_false_of_ne hne
      simp only [List.enumFrom, List.map, List.lookup, hbeq]
      have := ih (k + 1) j (by simpa using hi)
      have harith : k + 1 + j = k + (j + 1) := by omega
      rw [harith] at this
      simpa using this

/-! ### Claim C1 -/

/-- C1: for every query string and every `top_k`, once the query embedding
has been obtained, `get_relevant_documents` calls its search helper with the
keyword argument `initial_k=5`, which neither `_search_with_docstore` nor
`_search_chunks` declares (both declare `top_k`); the call therefore raises
`TypeError` (unexpected keyword argument) and never returns a result list. -/
theorem c1_get_relevant_documents_raises_type_error
    (vs : FaisVS) (query : String) (top_k : Nat) (qe : List Int)
    (h : embedQueryStep vs query = .ok qe) :
    get_relevant_documents vs query top_k =
      .error (.typeError ((if vs.docstore.isSome then "_search_with_docstore"
        else "_search_chunks") ++ "() got an unexpected keyword argument initial_k")) := by
  unfold get_relevant_documents
  rw [h]
  by_cases hd : vs.docstore.isSome <;>
    simp [hd, callByKeywords, searchHelperParamNames, initialSearchKwargs, initialSearchK,
      List.find?]

def c1em : EmbedderModel :=
  { batch_embed := fun ts => some (ts.map (fun _ => [1])), embed_query := none }

def c1rr : String → List Doc → List Doc := fun _ ds => ds

def c1vs : FaisVS := initFais (some c1em) c1rr

/-- Witness for C1 at a concrete instance, query and `top_k`. -/
theorem c1_witness :
    embedQueryStep c1vs "query" = .ok [1] ∧
    get_relevant_documents c1vs "query" 5 =
      .error (.typeError "_search_chunks() got an unexpected keyword argument initial_k") :=
  ⟨rfl, c1_get_relevant_documents_raises_type_error c1vs "query" 5 [1] rfl⟩

/-! ### Claim C2 -/

def c2em : EmbedderModel :=
  { batch_embed := fun ts => some (ts.map (fun _ => [1])), embed_query := none }

def c2rr : String → List Doc → List Doc := fun _ ds => ds

def c2doc : Doc := { page_content := "alpha", metadata := [("k", MetaVal.s "v")] }

def c2built : FaisVS :=
  (create_vectorstore (fun m => m) (initFais (some c2em) c2rr) [c2doc] true).1

def c2saved : FileSystem × Option PyError := save_index c2built emptyFS "store"

def c2loaded : FaisVS × Option PyError :=
  load_index (initFais none c2rr) c2saved.1 "store" none

/-- C2 (code bug): after an enhanced-mode build is saved, loading the saved
artifacts into a fresh instance restores `dimension`, `total_vectors` and
`index_type` verbatim, but does **not** reconstruct the enhanced
DocumentStore: `load_index` never reads the serialized `docstore` or
`index_to_docstore_id` back, so the loaded instance is left in chunk mode. -/
theorem c2_load_drops_enhanced_docstore :
    c2saved.2 = none ∧ c2loaded.2 = none ∧
    c2built.docstore.isSome = true ∧ c2built.index_to_docstore_id.isSome = true ∧
    c2loaded.1.dimension = c2built.dimension ∧
    c2loaded.1.total_vectors = c2built.total_vectors ∧
    c2loaded.1.index_type = c2built.index_type ∧
    c2loaded.1.chunks_dict = c2built.chunks_dict ∧
    c2loaded.1.docstore = none ∧
    c2loaded.1.index_to_docstore_id = none :=
  ⟨rfl, rfl, rfl, rfl, rfl, rfl, rfl, rfl, rfl, rfl⟩

/-! ### Claim C4 -/

/-- C4 counterexample: the helper call in `get_relevant_documents` passes
the fixed candidate count 5 (keyword `initial_k`), which is **not** ≥ the
requested `top_k` when `top_k = 10`. -/
theorem c4_counterexample :
    List.lookup "initial_k" initialSearchKwargs = some initialSearchK ∧
    ¬ (10 ≤ initialSearchK) := ⟨rfl, by decide⟩

/-- C4 amended: the initial vector search candidate count is the fixed
constant 5 passed as keyword `initial_k`, so it is ≥ the requested `top_k`
exactly when `top_k ≤ 5` (in particular for the default `top_k = 5`). -/
theorem c4_amended_initial_k (top_k : Nat) (h : top_k ≤ 5) :
    ∀ k, List.lookup "initial_k" initialSearchKwargs = some k → top_k ≤ k := by
  intro k hk
  simp [initialSearchKwargs, initialSearchK, List.lookup] at hk
  omega

/-- Witness for the amended C4 at `top_k = 3`. -/
theorem c4_witness :
    (3 : Nat) ≤ 5 ∧
    ∀ k, List.lookup "initial_k" initialSearchKwargs = some k → 3 ≤ k :=
  ⟨by decide, c4_amended_initial_k 3 (by decide)⟩

/-! ### Claim C5 -/

def c5em : EmbedderModel :=
  { batch_embed := fun ts => some (ts.map (fun _ => [1])), embed_query := none }

def c5rr : String → List Doc → List Doc := fun _ ds => ds

def c5d0 : Doc := { page_content := "a", metadata := [] }

def c5d1 : Doc := { page_content := "b", metadata := [] }

def c5d2 : Doc := { page_content := "c", metadata := [] }

def c5s1 : FaisVS :=
  (create_vectorstore (fun m => m) (initFais (some c5em) c5rr) [c5d0, c5d1] true).1

def c5s2 : FaisVS := (create_vector_store c5s1 [c5d2] none).1

/-- C5 (code bug): an enhanced-mode build of two documents followed by a
chunk-mode rebuild of one document leaves `total_vectors = 1`, yet row id 1
still resolves through the stale `docstore` / `index_to_docstore_id` (which
`create_vector_store` never clears), so the resolvable row ids are not
exactly `[0, total_vectors)`. -/
theorem c5_stale_docstore_after_chunk_rebuild :
    (create_vectorstore (fun m => m) (initFais (some c5em) c5rr) [c5d0, c5d1] true).2 = none ∧
    (create_vector_store c5s1 [c5d2] none).2 = none ∧
    c5s2.total_vectors = 1 ∧
    resolveDoc c5s2 1 = some c5d1 ∧
    resolveChunk c5s2 1 = none ∧
    c5s2.docstore.isSome = true :=
  ⟨rfl, rfl, rfl, rfl, rfl, rfl⟩

/-! ### Claim C8 -/

/-- C8: on an index of dimension `d`, a (shape-normalized) query embedding
whose length is not `d` makes both search paths raise the
dimension-mismatch `ValueError` before any index search is executed. -/
theorem c8_dimension_mismatch (vs : FaisVS) (q : List Int) (k d : Nat)
    (hd : vs.dimension = some d) (hq : q.length ≠ d) :
    _search_chunks vs q k =
      .error (.valueError ("Query embedding dimension " ++ toString q.length ++
        " doesn't match index dimension " ++ toString d)) ∧
    _search_with_docstore vs q k =
      .error (.valueError ("Query embedding dimension " ++ toString q.length ++
        " doesn't match index dimension " ++ toString d)) := by
  have hbeq : (q.length == d) = false := beq_false_of_ne hq
  constructor <;> simp [_search_chunks, _search_with_docstore, hd, hbeq, dimStr]

def c8vs : FaisVS := { initFais none (fun _ ds => ds) with dimension := some 384 }

set_option maxRecDepth 4000 in
/-- Witness for C8: a dimension-384 index queried with a 256-length vector. -/
theorem c8_witness :
    _search_chunks c8vs (List.replicate 256 0) 5 =
      .error (.valueError
        "Query embedding dimension 256 doesn't match index dimension 384") ∧
    _search_with_docstore c8vs (List.replicate 256 0) 5 =
      .error (.valueError
        "Query embedding dimension 256 doesn't match index dimension 384") :=
  c8_dimension_mismatch c8vs (List.replicate 256 0) 5 384 rfl (by decide)

/-! ### Claim C9 -/

def c9em : EmbedderModel :=
  { batch_embed := fun ts => some (ts.map (fun _ => [1])),
    embed_query := some (fun _ => some [1]) }

def c9rr : String → List Doc → List Doc := fun _ ds => ds

def c9d0 : Doc := { page_content := "cat", metadata := [] }

def c9d1 : Doc := { page_content := "dog", metadata := [] }

def c9vs : FaisVS :=
  (create_vectorstore (fun m => m) (initFais (some c9em) c9rr) [c9d0, c9d1] true).1

/-- C9 (code bug): on a successfully built enhanced store,
`get_relevant_documents` raises `TypeError` before reranking or truncation
can happen, so it never returns the claimed list of at most `top_k`
documents tagged `reranked = True`. -/
theorem c9_retrieve_type_error_eval :
    (create_vectorstore (fun m => m) (initFais (some c9em) c9rr) [c9d0, c9d1] true).2 = none ∧
    get_relevant_documents c9vs "feline pet" 2 =
      .error (.typeError
        "_search_with_docstore() got an unexpected keyword argument initial_k") :=
  ⟨rfl, rfl⟩

/-! ### Claim C7 -/

/-- C7: `load_index` raises a `FileNotFoundError` naming the missing file
whenever either persisted artifact is absent, leaving the instance
untouched; in particular, when the index file exists but the metadata file
does not, the error names the metadata file. -/
theorem c7_missing_artifact_errors :
    (∀ (vs : FaisVS) (fs : FileSystem) (p : String) (em : Option EmbedderModel),
      List.lookup (("vectorstores/" ++ p) ++ ".faiss") fs.faissFiles = none →
      load_index vs fs p em =
        (vs, some (.fileNotFoundError
          ("Index file " ++ ("vectorstores/" ++ p) ++ ".faiss not found")))) ∧
    (∀ (vs : FaisVS) (fs : FileSystem) (p : String) (em : Option EmbedderModel)
        (idx : FaissIndexFlatIP),
      List.lookup (("vectorstores/" ++ p) ++ ".faiss") fs.faissFiles = some idx →
      List.lookup (("vectorstores/" ++ p) ++ "_metadata.pkl") fs.pklFiles = none →
      load_index vs fs p em =
        (vs, some (.fileNotFoundError
          ("Metadata file " ++ ("vectorstores/" ++ p) ++ "_metadata.pkl not found")))) := by
  constructor
  · intro vs fs p em h
    simp [load_index, h]
  · intro vs fs p em idx h1 h2
    simp [load_index, h1, h2]

def c7rr : String → List Doc → List Doc := fun _ ds => ds

def c7fsIdxOnly : FileSystem :=
  { faissFiles := [("vectorstores/p.faiss", { d := 1, vectors := [[1]] })], pklFiles := [] }

/-- Witness for C7: loading from an empty file system names the index file;
loading with only the index file present names the metadata file. -/
theorem c7_witness :
    load_index (initFais none c7rr) emptyFS "p" none =
      (initFais none c7rr, some (.fileNotFoundError
        "Index file vectorstores/p.faiss not found")) ∧
    load_index (initFais none c7rr) c7fsIdxOnly "p" none =
      (initFais none c7rr, some (.fileNotFoundError
        "Metadata file vectorstores/p_metadata.pkl not found")) :=
  ⟨c7_missing_artifact_errors.1 (initFais none c7rr) emptyFS "p" none rfl,
   c7_missing_artifact_errors.2 (initFais none c7rr) c7fsIdxOnly "p" none
     { d := 1, vectors := [[1]] } rfl rfl⟩

/-! ### Claim C6 -/

theorem rect_all_rowDim (m : List (List Int)) (h : isRect m = true) :
    m.all (fun r => r.length == rowDim m) = true := by
  cases m with
  | nil => rfl
  | cons r rs =>
    simp only [isRect] at h
    simp [List.all_cons, rowDim, List.headD, h]

theorem isRect_toMatrix (rows : List (List Int)) (h : isRect rows = true) :
    isRect (toMatrix rows) = true := by
  cases rows with
  | nil => rfl
  | cons r rs => simpa [toMatrix] using h

theorem faissAdd_not_error (rows2 : List (List Int)) (d : Nat) (e1 : PyError)
    (hall : rows2.all (fun r => r.length == d) = true) :
    faissAdd { d := d, vectors := [] } rows2 ≠ .error e1 := by
  simp [faissAdd, hall]

def c6rr : String → List Doc → List Doc := fun _ ds => ds

def c6badEm : EmbedderModel := { batch_embed := fun _ => none, embed_query := none }

def c6doc : Doc := { page_content := "x", metadata := [] }

def c6call : FaisVS × Option PyError :=
  create_vector_store (initFais none c6rr) [c6doc] (some c6badEm)

/-- C6 counterexample: `create_vector_store` assigns `self.embedder_model`
before calling `batch_embed`, so when the embedding call raises, the
instance state is **not** left exactly as before the call — the
`embedder_model` field has already been replaced. -/
theorem c6_counterexample :
    c6call.2.isSome = true ∧
    (initFais none c6rr).embedder_model.isSome = false ∧
    c6call.1.embedder_model.isSome = true :=
  ⟨rfl, rfl, rfl⟩

/-- C6 amended: when an ingestion call raises, every field of the instance
except `embedder_model` is exactly as before the call; `embedder_model` too
is unchanged unless `create_vector_store` was given an embedder argument
(which it assigns before embedding).  For `create_vectorstore` the
hypothesis says the external `faiss.normalize_L2` preserves row shapes, as
the real in-place routine does. -/
theorem c6_amended_ingestion_atomicity :
    (∀ (vs : FaisVS) (documents : List Doc) (em : Option EmbedderModel)
        (vs' : FaisVS) (e : PyError),
      create_vector_store vs documents em = (vs', some e) →
      vs'.index = vs.index ∧ vs'.chunks_dict = vs.chunks_dict ∧
      vs'.dimension = vs.dimension ∧ vs'.total_vectors = vs.total_vectors ∧
      vs'.index_type = vs.index_type ∧ vs'.docstore = vs.docstore ∧
      vs'.index_to_docstore_id = vs.index_to_docstore_id ∧
      vs'.documents = vs.documents ∧
      (em = none → vs'.embedder_model = vs.embedder_model)) ∧
    (∀ (nf : List (List Int) → List (List Int)) (vs : FaisVS) (docs : List Doc)
        (norm : Bool) (vs' : FaisVS) (e : PyError),
      (∀ m, isRect m = true → (nf m).all (fun r => r.length == rowDim m) = true) →
      create_vectorstore nf vs docs norm = (vs', some e) →
      vs' = vs) := by
  constructor
  · intro vs documents em vs' e h
    unfold create_vector_store at h
    cases em with
    | none =>
      simp only at h
      split at h
      · injection h with hv he
        subst hv
        exact ⟨rfl, rfl, rfl, rfl, rfl, rfl, rfl, rfl, fun _ => rfl⟩
      · rename_i em1 hm
        split at h
        · injection h with hv he
          subst hv
          exact ⟨rfl, rfl, rfl, rfl, rfl, rfl, rfl, rfl, fun _ => rfl⟩
        · rename_i rows hbe
          split at h
          · injection h with hv he
            subst hv
            exact ⟨rfl, rfl, rfl, rfl, rfl, rfl, rfl, rfl, fun _ => rfl⟩
          · rename_i hrect
            have hrect2 : isRect rows = true := by revert hrect; cases isRect rows <;> simp
            split at h
            · rename_i e1 hadd
              exact absurd hadd (faissAdd_not_error _ _ e1
                (rect_all_rowDim (toMatrix rows) (isRect_toMatrix rows hrect2)))
            · injection h with hv he
              cases he
    | some em0 =>
      simp only at h
      split at h
      · injection h with hv he
        subst hv
        exact ⟨rfl, rfl, rfl, rfl, rfl, rfl, rfl, rfl, fun hc => by cases hc⟩
      · rename_i rows hbe
        split at h
        · injection h with hv he
          subst hv
          exact ⟨rfl, rfl, rfl, rfl, rfl, rfl, rfl, rfl, fun hc => by cases hc⟩
        · rename_i hrect
          have hrect2 : isRect rows = true := by revert hrect; cases isRect rows <;> simp
          split at h
          · rename_i e1 hadd
            exact absurd hadd (faissAdd_not_error _ _ e1
              (rect_all_rowDim (toMatrix rows) (isRect_toMatrix rows hrect2)))
          · injection h with hv he
            cases he
  · intro nf vs docs norm vs' e hnf h
    unfold create_vectorstore at h
    split at h
    · injection h with hv he
      exact hv.symm
    · rename_i em0 hm
      split at h
      all_goals
        simp only at h
        split at h
        · injection h with hv he
          exact hv.symm
        · rename_i rows hbe
          split at h
          · injection h with hv he
            exact hv.symm
          · rename_i hrect
            have hrect2 : isRect rows = true := by revert hrect; cases isRect rows <;> simp
            split at h
            · rename_i e1 hadd
              first
              | exact absurd hadd (faissAdd_not_error _ _ e1
                  (hnf (toMatrix rows) (isRect_toMatrix rows hrect2)))
              | exact absurd hadd (faissAdd_not_error _ _ e1
                  (rect_all_rowDim (toMatrix rows) (isRect_toMatrix rows hrect2)))
            · injection h with hv he
              cases he

/-- Witness for the amended C6: an embedderless instance, where both
ingestion calls raise and the state is returned untouched. -/
theorem c6_witness :
    (create_vector_store (initFais none c6rr) [] none).1.dimension =
      (initFais none c6rr).dimension ∧
    (create_vectorstore (fun m => m) (initFais none c6rr) [] true).1 =
      initFais none c6rr :=
  ⟨(c6_amended_ingestion_atomicity.1 (initFais none c6rr) [] none _ _ rfl).2.2.1,
   c6_amended_ingestion_atomicity.2 (fun m => m) (initFais none c6rr) [] true _ _
     rect_all_rowDim rfl⟩

/-! ### Claim C10 -/

/-- C10: a store built from documents `[d0, ..., dn-1]` in either mode
assigns row ids `0..n-1` in input order: before any search, resolving row
id `i` (through `chunks_dict` in chunk mode; through
`index_to_docstore_id` and `docstore` in enhanced mode) yields exactly the
content of `di`. -/
theorem c10_row_id_stability :
    (∀ (vs : FaisVS) (documents : List Doc) (em : Option EmbedderModel) (vs' : FaisVS),
      create_vector_store vs documents em = (vs', none) →
      ∀ i, i < documents.length →
        resolveChunk vs' i = (documents.get? i).map (fun d => d.page_content)) ∧
    (∀ (nf : List (List Int) → List (List Int)) (vs : FaisVS) (docs : List Doc)
        (norm : Bool) (vs' : FaisVS),
      create_vectorstore nf vs docs norm = (vs', none) →
      ∀ i, i < docs.length →
        resolveDoc vs' (i : Int) = docs.get? i) := by
  constructor
  · intro vs documents em vs' h i hi
    unfold create_vector_store at h
    cases em with
    | none =>
      simp only at h
      split at h
      · injection h with hv he
        cases he
      · rename_i em1 hm
        split at h
        · injection h with hv he
          cases he
        · rename_i rows hbe
          split at h
          · injection h with hv he
            cases he
          · split at h
            · injection h with hv he
              cases he
            · injection h with hv he
              subst hv
              simp [resolveChunk, List.getElem?_map]
    | some em0 =>
      simp only at h
      split at h
      · injection h with hv he
        cases he
      · rename_i rows hbe
        split at h
        · injection h with hv he
          cases he
        · split at h
          · injection h with hv he
            cases he
          · injection h with hv he
            subst hv
            simp [resolveChunk, List.getElem?_map]
  · intro nf vs docs norm vs' h i hi
    unfold create_vectorstore at h
    split at h
    · injection h with hv he
      cases he
    · rename_i em0 hm
      split at h
      all_goals
        simp only at h
        split at h
        · injection h with hv he
          cases he
        · rename_i rows hbe
          split at h
          · injection h with hv he
            cases he
          · split at h
            · injection h with hv he
              cases he
            · injection h with hv he
              subst hv
              simp [resolveDoc, lookup_stdMapping docs.length i hi,
                lookup_stdDocstore docs i hi]

def c10em : EmbedderModel :=
  { batch_embed := fun ts => some (ts.map (fun _ => [1])), embed_query := none }

def c10rr : String → List Doc → List Doc := fun _ ds => ds

def c10d0 : Doc := { page_content := "cat", metadata := [] }

def c10d1 : Doc := { page_content := "dog", metadata := [] }

/-- Witness for C10 on a concrete two-document build in each mode. -/
theorem c10_witness :
    resolveChunk (create_vector_store (initFais (some c10em) c10rr)
      [c10d0, c10d1] none).1 1 = some "dog" ∧
    resolveDoc (create_vectorstore (fun m => m) (initFais (some c10em) c10rr)
      [c10d0, c10d1] true).1 1 = some c10d1 :=
  ⟨c10_row_id_stability.1 (initFais (some c10em) c10rr) [c10d0, c10d1] none _ rfl 1 (by decide),
   c10_row_id_stability.2 (fun m => m) (initFais (some c10em) c10rr) [c10d0, c10d1] true _ rfl
     1 (by decide)⟩

/-! ### Claim C3 -/

/-- Reads an integer metadata value, as the tests on search results do. -/
def getMetaInt (d : Doc) (key : String) : Option Int :=
  match List.lookup key d.metadata with
  | some (MetaVal.i v) => some v
  | _ => none

/-- The `(row id, score)` view of enhanced-mode search results, read from
the `retrieval_index` and `similarity` metadata the search attaches. -/
def docRowScores (l : List Doc) : List (Option Int × Option Int) :=
  l.map (fun d => (getMetaInt d "retrieval_index", getMetaInt d "similarity"))

/-- The `(row id, score)` view of chunk-mode search results. -/
def chunkRowScores (l : List ChunkResult) : List (Option Int × Option Int) :=
  l.map (fun r => (some r.chunk_id, some r.similarity))

theorem lookup_stdMapping_none (n m : Nat) (h : n ≤ m) :
    List.lookup ((m : Int)) (stdMapping n) = none := by
  have main : ∀ (l : List Nat), (∀ j ∈ l, j ≠ m) →
      List.lookup ((m : Int)) (l.map (fun (j : Nat) => ((j : Int), toString j))) = none := by
    intro l
    induction l with
    | nil => intro _; rfl
    | cons j rest ih =>
      intro hall
      have hne : (m : Int) ≠ (j : Int) := by
        intro hc
        exact hall j (List.mem_cons_self j rest) (by exact_mod_cast hc.symm)
      simp [List.lookup, beq_false_of_ne hne,
        ih (fun x hx => hall x (List.mem_cons_of_mem _ hx))]
  exact main (List.range n) (fun j hj => by
    have := List.mem_range.mp hj
    omega)

theorem faissSearch_ids (idx : FaissIndexFlatIP) (q : List Int) (k : Nat) :
    ∀ pr ∈ faissSearch idx q k, pr.2 = -1 ∨ 0 ≤ pr.2 := by
  intro pr hpr
  unfold faissSearch at hpr
  rcases List.mem_append.mp hpr with h | h
  · have h2 := List.take_subset _ _ h
    have h3 := List.mem_mergeSort.mp h2
    rcases List.mem_map.mp h3 with ⟨pair, hmem, heq⟩
    right
    rw [← heq]
    exact Int.ofNat_nonneg _
  · left
    rw [List.eq_of_mem_replicate h]

theorem docstoreCollect_chunksCollect (docs : List Doc) :
    ∀ (res : List (Int × Int)), (∀ pr ∈ res, pr.2 = -1 ∨ 0 ≤ pr.2) →
      ∃ l1 l2,
        docstoreCollect (some (stdMapping docs.length)) (some (stdDocstore docs)) res =
          .ok l1 ∧
        chunksCollect (some (docs.map (fun d => d.page_content))) res = .ok l2 ∧
        docRowScores l1 = chunkRowScores l2 := by
  intro res
  induction res with
  | nil => exact fun _ => ⟨[], [], rfl, rfl, rfl⟩
  | cons pr rest ih =>
    intro hres
    obtain ⟨dist, fidx⟩ := pr
    obtain ⟨l1, l2, hd, hc, hsc⟩ := ih (fun x hx => hres x (List.mem_cons_of_mem _ hx))
    by_cases hne : fidx = -1
    · subst hne
      exact ⟨l1, l2, hd, hc, hsc⟩
    · have h0 : 0 ≤ fidx := by
        rcases hres (dist, fidx) (List.mem_cons_self _ _) with h | h
        · exact absurd h hne
        · exact h
      obtain ⟨m, rfl⟩ : ∃ m : Nat, fidx = (m : Int) :=
        ⟨fidx.toNat, (Int.toNat_of_nonneg h0).symm⟩
      have hbne : ((m : Int) != -1) = true := by
        simp only [bne_iff_ne, ne_eq]
        exact hne
      by_cases hm : m < docs.length
      · have hmap := lookup_stdMapping docs.length m hm
        obtain ⟨doc, hdoc⟩ : ∃ d, docs[m]? = some d :=
          ⟨docs.get ⟨m, hm⟩, by simp [List.getElem?_eq_getElem hm]⟩
        have hds : List.lookup (toString m) (stdDocstore docs) = some doc := by
          rw [lookup_stdDocstore docs m hm]
          simpa [List.get?_eq_getElem?] using hdoc
        refine ⟨{ page_content := doc.page_content,
                  metadata := setKey (setKey doc.metadata "similarity" (MetaVal.i dist))
                    "retrieval_index" (MetaVal.i (m : Int)) } :: l1,
                { chunk_id := (m : Int),
                  text := (((docs.map (fun d => d.page_content)).get? ((m : Int)).toNat).getD ""),
                  distance := dist, similarity := dist } :: l2, ?_, ?_, ?_⟩
        · simp [docstoreCollect, hbne, hmap, hds, hd]
        · simp [chunksCollect, hbne, hm, hc, List.get?_eq_getElem?]
        · have hsc2 : List.map
              (fun d => (getMetaInt d "retrieval_index", getMetaInt d "similarity")) l1 =
              List.map (fun r =>
                ((some r.chunk_id : Option Int), (some r.similarity : Option Int))) l2 := hsc
          have hri : List.lookup "retrieval_index"
              (setKey (setKey doc.metadata "similarity" (MetaVal.i dist))
                "retrieval_index" (MetaVal.i (m : Int))) = some (MetaVal.i (m : Int)) :=
            lookup_setKey_self _ _ _
          have hsi : List.lookup "similarity"
              (setKey (setKey doc.metadata "similarity" (MetaVal.i dist))
                "retrieval_index" (MetaVal.i (m : Int))) = some (MetaVal.i dist) := by
            rw [lookup_setKey_ne _ _ _ _ (by decide : "similarity" ≠ "retrieval_index")]
            exact lookup_setKey_self _ _ _
          simp only [docRowScores, chunkRowScores, List.map_cons, hsc2]
          congr 1
          simp [getMetaInt, hri, hsi]
      · have hmap := lookup_stdMapping_none docs.length m (Nat.le_of_not_lt hm)
        exact ⟨l1, l2, by simpa [docstoreCollect, hbne, hmap] using hd,
          by simpa [chunksCollect, hbne, hm] using hc, hsc⟩

theorem search_chunks_congr (a b : FaisVS)
    (h1 : a.dimension = b.dimension) (h2 : a.index = b.index)
    (h3 : a.chunks_dict = b.chunks_dict) :
    ∀ q k, _search_chunks a q k = _search_chunks b q k := by
  intro q k
  unfold _search_chunks
  rw [h1, h2, h3]

theorem docstore_search_eq (vs vs2 : FaisVS) (idx : FaissIndexFlatIP) (docs : List Doc)
    (hidx : vs.index = some idx)
    (hds : vs.docstore = some (stdDocstore docs))
    (hmap : vs.index_to_docstore_id = some (stdMapping docs.length))
    (hch : vs.chunks_dict = some (docs.map (fun d => d.page_content)))
    (h2idx : vs2.index = some idx) (h2dim : vs2.dimension = vs.dimension)
    (h2ch : vs2.chunks_dict = vs.chunks_dict) :
    ∀ (q : List Int) (k : Nat),
      (_search_with_docstore vs q k).map docRowScores =
        (_search_chunks vs2 q k).map chunkRowScores := by
  intro q k
  obtain ⟨l1, l2, h1, h2, h3⟩ :=
    docstoreCollect_chunksCollect docs (faissSearch idx q k) (faissSearch_ids idx q k)
  unfold _search_with_docstore _search_chunks
  rw [h2dim, h2idx, h2ch, hidx, hds, hmap, hch]
  cases hdim : vs.dimension with
  | none => rfl
  | some d =>
    by_cases hq : q.length = d
    · simp [hq, h1, h2, Except.map, h3]
    · simp [beq_false_of_ne hq, Except.map]

/-- C3: saving a built index-and-store pair to a path prefix and loading
from that same prefix into a fresh instance succeeds and yields a store
whose search results for any fixed query are identical to the pre-save
instance: the index, dimension and chunk table round-trip verbatim, the
chunk search path returns literally identical results, and for an
enhanced-mode pair the pre-save docstore search produces exactly the same
`(row id, score)` pairs as the loaded instance's search. -/
theorem c3_save_load_round_trip
    (vs : FaisVS) (fs fs1 : FileSystem) (p : String)
    (em : Option EmbedderModel) (rr : String → List Doc → List Doc)
    (hsave : save_index vs fs p = (fs1, none)) :
    ∃ vs2, load_index (initFais none rr) fs1 p em = (vs2, none) ∧
      vs2.index = vs.index ∧ vs2.dimension = vs.dimension ∧
      vs2.chunks_dict = vs.chunks_dict ∧ vs2.total_vectors = vs.total_vectors ∧
      vs2.index_type = vs.index_type ∧
      (∀ q k, _search_chunks vs2 q k = _search_chunks vs q k) ∧
      (∀ (docs : List Doc) (q : List Int) (k : Nat),
        vs.docstore = some (stdDocstore docs) →
        vs.index_to_docstore_id = some (stdMapping docs.length) →
        vs.chunks_dict = some (docs.map (fun d => d.page_content)) →
        (_search_with_docstore vs q k).map docRowScores =
          (_search_chunks vs2 q k).map chunkRowScores) := by
  unfold save_index at hsave
  split at hsave
  · injection hsave with hfs he
    cases he
  · rename_i idx hidx
    injection hsave with hfs he
    subst hfs
    cases em with
    | none =>
      refine ⟨{ index := some idx, chunks_dict := vs.chunks_dict,
                dimension := vs.dimension, total_vectors := vs.total_vectors,
                index_type := vs.index_type, embedder_model := none,
                enable_reranking := true, reranker := rr, docstore := none,
                index_to_docstore_id := none, documents := none },
              ?_, hidx.symm, rfl, rfl, rfl, rfl, ?_, ?_⟩
      · simp [load_index, lookup_setKey_self, initFais]
      · intro q k
        apply search_chunks_congr
        · rfl
        · exact hidx.symm
        · rfl
      · intro docs q k hds hmap hch
        apply docstore_search_eq vs _ idx docs hidx hds hmap hch
        · rfl
        · rfl
        · rfl
    | some em0 =>
      refine ⟨{ index := some idx, chunks_dict := vs.chunks_dict,
                dimension := vs.dimension, total_vectors := vs.total_vectors,
                index_type := vs.index_type, embedder_model := some em0,
                enable_reranking := true, reranker := rr, docstore := none,
                index_to_docstore_id := none, documents := none },
              ?_, hidx.symm, rfl, rfl, rfl, rfl, ?_, ?_⟩
      · simp [load_index, lookup_setKey_self, initFais]
      · intro q k
        apply search_chunks_congr
        · rfl
        · exact hidx.symm
        · rfl
      · intro docs q k hds hmap hch
        apply docstore_search_eq vs _ idx docs hidx hds hmap hch
        · rfl
        · rfl
        · rfl

def c3em : EmbedderModel :=
  { batch_embed := fun ts => some (ts.map (fun _ => [1])), embed_query := none }

def c3rr : String → List Doc → List Doc := fun _ ds => ds

def c3doc : Doc := { page_content := "alpha", metadata := [] }

def c3vs : FaisVS := (create_vector_store (initFais (some c3em) c3rr) [c3doc] none).1

def c3fs1 : FileSystem := (save_index c3vs emptyFS "p").1

/-- Witness for C3 on a concrete one-document build, saved and reloaded. -/
theorem c3_witness :
    ∃ vs2, load_index (initFais none c3rr) c3fs1 "p" none = (vs2, none) ∧
      vs2.chunks_dict = c3vs.chunks_dict ∧
      (∀ q k, _search_chunks vs2 q k = _search_chunks c3vs q k) :=
  match c3_save_load_round_trip c3vs emptyFS c3fs1 "p" none c3rr rfl with
  | ⟨vs2, h1, _, _, h4, _, _, h7, _⟩ => ⟨vs2, h1, h4, h7⟩
